import Mathlib

/-!
# Verification of the Kanban task-board core (persistence + drag state + board controller)

Shallow embedding of the TypeScript sources:

* `utils/storage.ts` — `StorageService` (getTasks / saveTasks / clearTasks /
  importTasks / isValidTask) over the browser's `localStorage`.
* `components/kanban-column.tsx` — the column drag handlers
  (`handleDragEnter` / `handleDragLeave` / `handleDrop`), the board controller
  (`addTask` / `updateTaskStatus` / `handleDrop`) and the task form guard
  (`TaskForm.handleSubmit`).

Modelling conventions:

* A stored `localStorage` entry holding JSON text is modelled by the parsed
  JSON document (`JValue`), because `JSON.parse (JSON.stringify v) = v` for
  every JSON value; the cases where `getItem` yields the empty string or a
  non-JSON string are kept as explicit constructors of `StoredDoc`.
* `Date.parse` is a host-environment function; it is carried as an explicit
  parameter `dp : String → Bool` standing for `!isNaN(Date.parse s)`.
* JavaScript numbers in JSON documents are modelled as `Int` (no claim
  depends on fractional values).
* The `typeof window === "undefined"` server-side guards are dropped: the
  model is of the browser environment, where `window` exists.
-/

namespace Kanban

/-- A JSON value, the result of `JSON.parse` on well-formed JSON text. -/
inductive JValue where
  | null : JValue
  | bool (b : Bool) : JValue
  | num (n : Int) : JValue
  | str (s : String) : JValue
  | arr (items : List JValue) : JValue
  | obj (fields : List (String × JValue)) : JValue
deriving Inhabited

/-- First-match lookup of a key in a JSON object's field list. -/
def lookupField : List (String × JValue) → String → Option JValue
  | [], _ => none
  | (k, v) :: rest, key => if k = key then some v else lookupField rest key

/-- Property access `v[k]` on a JSON value that is known not to be `null`
(objects yield the field or `undefined`; primitives and arrays yield
`undefined`, modelled as `none`). -/
def fieldAcc (v : JValue) (k : String) : Option JValue :=
  match v with
  | .obj fields => lookupField fields k
  | _ => none

/-- Property access `v[k]` in full: on `null` it throws a `TypeError`,
modelled as `Except.error`; otherwise it behaves as `fieldAcc`. -/
def jsMember (v : JValue) (k : String) : Except Unit (Option JValue) :=
  match v with
  | .null => .error ()
  | _ => .ok (fieldAcc v k)

/-- JavaScript truthiness of a JSON value. -/
def jsTruthy : JValue → Bool
  | .null => false
  | .bool b => b
  | .num n => n != 0
  | .str s => s != ""
  | .arr _ => true
  | .obj _ => true

/-- Model of `typeof v === "object"` for a JSON value (`null`, arrays and objects). -/
def jsTypeofObject : JValue → Bool
  | .null => true
  | .arr _ => true
  | .obj _ => true
  | _ => false

/-- Model of `typeof (fieldAcc v k) === "string"`. -/
def isStrField (v : JValue) (k : String) : Bool :=
  match fieldAcc v k with
  | some (.str _) => true
  | _ => false

/-- Model of `StorageService.isValidTask` (storage.ts lines 178–190): the record is a
truthy object whose `id`, `title`, `description`, `status`, `createdAt`
fields are strings, with `status` in the enumerated set and `createdAt`
accepted by `Date.parse` (the parameter `dp`). -/
def isValidTask (dp : String → Bool) (task : JValue) : Bool :=
  jsTruthy task &&
  jsTypeofObject task &&
  isStrField task "id" &&
  isStrField task "title" &&
  isStrField task "description" &&
  isStrField task "status" &&
  (match fieldAcc task "status" with
   | some (.str s) => ["todo", "in-progress", "done"].contains s
   | _ => false) &&
  isStrField task "createdAt" &&
  (match fieldAcc task "createdAt" with
   | some (.str s) => dp s
   | _ => false)

/-- The content of the `kanban-tasks` entry: absent is `Option.none` at the
`Store` level; present entries are the empty string (falsy, skipped before
parsing), a non-JSON string (parse throws), or a JSON document. -/
inductive StoredDoc where
  | empty : StoredDoc
  | malformed : StoredDoc
  | json (v : JValue) : StoredDoc

/-- The two `localStorage` entries used by `StorageService`:
`kanban-tasks` and `kanban-version`. -/
structure Store where
  tasksEntry : Option StoredDoc
  versionEntry : Option String

/-- Model of `StorageService.STORAGE_VERSION`. -/
def STORAGE_VERSION : String := "1.0"

/-- Model of `StorageService.clearTasks` (storage.ts lines 88–97): removes both
entries. -/
def clearTasks (_ : Store) : Store :=
  { tasksEntry := none, versionEntry := none }

/-- Model of `StorageService.saveTasks` (storage.ts lines 61–83): filters the input
to valid tasks, writes them as the `kanban-tasks` JSON array and stamps the
version marker. (The quota-exceeded catch is not modelled: the store is
assumed writable.) -/
def saveTasks (dp : String → Bool) (tasks : List JValue) (_ : Store) : Store :=
  let validTasks := tasks.filter (isValidTask dp)
  { tasksEntry := some (.json (.arr validTasks)),
    versionEntry := some STORAGE_VERSION }

/-- The body of `StorageService.getTasks` after the version gate
(storage.ts lines 28–54): absent or empty entry yields `[]`; a parse throw
or a non-array document clears the store; an array is filtered by
`isValidTask`, and if elements were dropped the cleaned list is re-saved. -/
def getTasksBody (dp : String → Bool) (s : Store) : List JValue × Store :=
  match s.tasksEntry with
  | none => ([], s)
  | some .empty => ([], s)
  | some .malformed => ([], clearTasks s)
  | some (.json parsed) =>
    match parsed with
    | .arr items =>
      let validTasks := items.filter (isValidTask dp)
      if validTasks.length != items.length then
        (validTasks, saveTasks dp validTasks s)
      else
        (validTasks, s)
    | _ => ([], clearTasks s)

/-- Model of `StorageService.getTasks` (storage.ts lines 16–55): the version gate
`if (version && version !== STORAGE_VERSION)` clears the store and returns
`[]`; note that an empty-string marker is falsy and does not trigger the
gate. -/
def getTasks (dp : String → Bool) (s : Store) : List JValue × Store :=
  match s.versionEntry with
  | some v =>
    if v != "" && v != STORAGE_VERSION then ([], clearTasks s)
    else getTasksBody dp s
  | none => getTasksBody dp s

/-- The structured result of `StorageService.importTasks`. -/
structure ImportResult where
  success : Bool
  message : String
  tasksImported : Nat
deriving DecidableEq

/-- The input to `importTasks`: a JSON text, given as either a string
`JSON.parse` rejects (throws on) or the document it yields. -/
inductive ImportInput where
  | malformed : ImportInput
  | json (v : JValue) : ImportInput

/-- Model of `task.id` of a record already known to pass `isValidTask` (where the
field is a string). -/
def idOf (task : JValue) : String :=
  match fieldAcc task "id" with
  | some (.str s) => s
  | _ => ""

/-- Model of `StorageService.importTasks` (storage.ts lines 142–173): on a parse
throw (including the `TypeError` from `data.tasks` when the document is
`null`) return the parse-failure result; when `data.tasks` is missing,
falsy or not an array return "Invalid backup format"; filter to valid
tasks, failing with "No valid tasks found in backup" when none remain;
otherwise append the imported tasks whose id is not among the existing
tasks' ids and persist the merged list via `saveTasks`. -/
def importTasks (dp : String → Bool) (input : ImportInput) (s : Store) :
    ImportResult × Store :=
  match input with
  | .malformed =>
    ({ success := false, message := "Failed to parse backup file",
       tasksImported := 0 }, s)
  | .json data =>
    match jsMember data "tasks" with
    | .error _ =>
      ({ success := false, message := "Failed to parse backup file",
         tasksImported := 0 }, s)
    | .ok tasksField =>
      match tasksField with
      | some (.arr ts) =>
        let validTasks := ts.filter (isValidTask dp)
        if validTasks.length = 0 then
          ({ success := false, message := "No valid tasks found in backup",
             tasksImported := 0 }, s)
        else
          let loaded := getTasks dp s
          let existingTasks := loaded.fst
          let existingIds := existingTasks.map idOf
          let newTasks := validTasks.filter (fun t => !(existingIds.contains (idOf t)))
          let mergedTasks := existingTasks ++ newTasks
          let n := newTasks.length
          ({ success := true, message := s!"Successfully imported {n} tasks",
             tasksImported := n }, saveTasks dp mergedTasks loaded.snd)
      | _ =>
        ({ success := false, message := "Invalid backup format",
           tasksImported := 0 }, s)

/-! ## Task records, board controller (kanban-column.tsx, KanbanBoard) -/

/-- Model of `TaskStatus` (types/task.ts). -/
inductive TaskStatus where
  | todo : TaskStatus
  | inProgress : TaskStatus
  | done : TaskStatus
deriving DecidableEq

/-- The string literal behind each `TaskStatus` value. -/
def statusString : TaskStatus → String
  | .todo => "todo"
  | .inProgress => "in-progress"
  | .done => "done"

/-- Model of `Task` (types/task.ts). -/
structure Task where
  id : String
  title : String
  description : String
  status : TaskStatus
  createdAt : String
deriving DecidableEq

/-- Model of `JSON.stringify(task)` as set on the drag payload
(task-card.tsx, `setData("application/json", JSON.stringify(task))`),
given as the parsed document. -/
def taskToJson (t : Task) : JValue :=
  .obj [("id", .str t.id), ("title", .str t.title),
        ("description", .str t.description),
        ("status", .str (statusString t.status)),
        ("createdAt", .str t.createdAt)]

/-- JavaScript `String.prototype.trim`: removes leading and trailing
whitespace. -/
def jsTrim (s : String) : String :=
  ⟨((s.data.dropWhile Char.isWhitespace).reverse.dropWhile Char.isWhitespace).reverse⟩

/-- Model of `KanbanBoard.addTask` (kanban-column.tsx lines 527–536): appends a new
task with status `todo`; the fresh id and the `createdAt` timestamp are
host-generated and passed as parameters. -/
def addTask (freshId now : String) (title description : String)
    (tasks : List Task) : List Task :=
  tasks ++ [{ id := freshId, title := title, description := description,
              status := .todo, createdAt := now }]

/-- Model of `TaskForm.handleSubmit` (kanban-column.tsx lines 394–416), composed
with the board's `addTask` it invokes through `onAddTask`: returns without
creating anything when `!title.trim()` (the trimmed title is empty),
otherwise calls `addTask(title.trim(), description.trim())`. -/
def submitTask (freshId now : String) (title description : String)
    (tasks : List Task) : List Task :=
  if jsTrim title = "" then tasks
  else addTask freshId now (jsTrim title) (jsTrim description) tasks

/-- Model of `KanbanBoard.updateTaskStatus` (kanban-column.tsx lines 541–551): maps
over the list, replacing the status of every task whose id matches. -/
def updateTaskStatus (taskId : String) (newStatus : TaskStatus)
    (tasks : List Task) : List Task :=
  tasks.map (fun task =>
    if task.id = taskId then { task with status := newStatus } else task)

/-- Model of `KanbanBoard.handleDrop` (kanban-column.tsx lines 587–592): when a task
is being dragged and its status differs from the target column, update it;
in all cases the dragged-task register is reset to `null`. -/
def boardHandleDrop (draggedTask : Option Task) (status : TaskStatus)
    (tasks : List Task) : List Task × Option Task :=
  (match draggedTask with
   | some t => if t.status ≠ status then updateTaskStatus t.id status tasks else tasks
   | none => tasks,
   none)

/-! ## Column drag handlers (kanban-column.tsx, KanbanColumn) -/

/-- The per-column drag state: the `isDragOver` flag and the
`dragOverCounter` (a JavaScript number, modelled as `Int`). -/
structure ColState where
  isDragOver : Bool
  dragOverCounter : Int
deriving DecidableEq

/-- Model of `KanbanColumn.handleDragEnter` (kanban-column.tsx lines 55–65):
increments the counter; sets the over flag when it was clear. -/
def handleDragEnter (s : ColState) : ColState :=
  let s1 : ColState := { s with dragOverCounter := s.dragOverCounter + 1 }
  if s1.isDragOver then s1 else { s1 with isDragOver := true }

/-- Model of `KanbanColumn.handleDragLeave` (kanban-column.tsx lines 70–85):
decrements the counter; when the new value is ≤ 0 the over flag is cleared
and the counter pinned at 0. -/
def handleDragLeave (s : ColState) : ColState :=
  let newCounter := s.dragOverCounter - 1
  if newCounter ≤ 0 then { isDragOver := false, dragOverCounter := 0 }
  else { s with dragOverCounter := newCounter }

/-- The idle column state: no highlight, counter 0. -/
def idleCol : ColState := { isDragOver := false, dragOverCounter := 0 }

/-- The `application/json` transfer entry as seen by the drop handler:
absent (`getData` returns `""`), present but rejected by `JSON.parse`, or
present and parsed. -/
inductive TransferData where
  | absent : TransferData
  | malformed : TransferData
  | parsed (v : JValue) : TransferData

/-- Model of `KanbanColumn.handleDrop` (kanban-column.tsx lines 90–125), reduced to
whether `onDrop(status)` is emitted: nothing happens unless both transfer
entries are truthy (nonempty); then a parse throw — or a `TypeError`
reading `task.status` off `null` — falls back to `onDrop(status)`, and a
parsed task emits `onDrop(status)` exactly when `task.status !== status`. -/
def columnHandleDrop (taskId : String) (td : TransferData)
    (colStatus : TaskStatus) : Bool :=
  if taskId = "" then false
  else
    match td with
    | .absent => false
    | .malformed => true
    | .parsed task =>
      match jsMember task "status" with
      | .error _ => true
      | .ok f =>
        match f with
        | some (.str s) => s != statusString colStatus
        | _ => true

/-! ## Shared concrete data for witnesses and counterexamples -/

/-- A record passing `isValidTask` under any `dp` accepting its date. -/
def demoTask : JValue :=
  .obj [("id", .str "t1"), ("title", .str "demo"), ("description", .str ""),
        ("status", .str "todo"), ("createdAt", .str "2024-01-01")]

/-- A record failing `isValidTask` (only an `id` field), as in the
backup-restore example of the spec. -/
def invalidRecord : JValue := .obj [("id", .str "x")]

/-- The store with neither entry present. -/
def emptyStore : Store := { tasksEntry := none, versionEntry := none }

/-- Model of `statusString` is injective: the three status literals are distinct. -/
theorem statusString_injective (a b : TaskStatus)
    (h : statusString a = statusString b) : a = b := by
  cases a <;> cases b <;> first | rfl | exact absurd h (by decide)

/-! ## Claims -/

/-- Claim C1: For every list of task records `C` (and any host date-parse
behaviour `dp`), saving `C` with `saveTasks` and then loading with
`getTasks` returns exactly `C.filter (isValidTask dp)` — the subsequence
of `C` whose elements satisfy the validity predicate, in the same relative
order — and leaves the store as `saveTasks` wrote it. -/
theorem save_load_roundtrip (dp : String → Bool) (C : List JValue) (s : Store) :
    getTasks dp (saveTasks dp C s)
      = (C.filter (isValidTask dp), saveTasks dp C s) ∧
    (getTasks dp (saveTasks dp C s)).fst.Sublist C := by
  have hfix : (C.filter (isValidTask dp)).filter (isValidTask dp)
      = C.filter (isValidTask dp) := by
    rw [List.filter_filter]
    exact List.filter_congr (fun a _ => by cases isValidTask dp a <;> rfl)
  constructor
  · show getTasksBody dp (saveTasks dp C s) = _
    unfold getTasksBody saveTasks
    simp only [hfix, bne_self_eq_false, Bool.false_eq_true, if_false]
  · show (getTasks dp (saveTasks dp C s)).fst.Sublist C
    have : getTasks dp (saveTasks dp C s)
        = (C.filter (isValidTask dp), saveTasks dp C s) := by
      show getTasksBody dp (saveTasks dp C s) = _
      unfold getTasksBody saveTasks
      simp only [hfix, bne_self_eq_false, Bool.false_eq_true, if_false]
    rw [this]
    exact List.filter_sublist C

/-- Claim C3, counterexample: The claim states that whenever a version
marker is present and differs from `"1.0"`, `getTasks` discards all stored
data and returns the empty collection. The gate in the code is
`if (version && version !== STORAGE_VERSION)`, and the empty string is
falsy: with marker `""` (present and different from `"1.0"`) the data is
returned and the marker is not removed. -/
theorem version_gate_counterexample :
    let s : Store := { tasksEntry := some (.json (.arr [demoTask])),
                       versionEntry := some "" }
    (getTasks (fun _ => true) s).fst.length = 1 ∧
    (getTasks (fun _ => true) s).snd.versionEntry = some "" := by
  exact ⟨rfl, rfl⟩

/-- Claim C3, amended: For every stored state whose version marker is
present, nonempty, and differs from the supported version `"1.0"`,
`getTasks` discards all stored data (removes both the collection entry and
the version marker) and returns the empty collection. -/
theorem version_gate_clears (dp : String → Bool) (s : Store) (v : String)
    (hv : s.versionEntry = some v) (hne : v ≠ "") (hneq : v ≠ STORAGE_VERSION) :
    (getTasks dp s).fst = [] ∧
    (getTasks dp s).snd.tasksEntry = none ∧
    (getTasks dp s).snd.versionEntry = none := by
  unfold getTasks
  rw [hv]
  simp [hne, hneq, clearTasks]

/-- Witness for C3 (amended): a store carrying marker `"0.9"` and a task
entry is fully cleared. -/
theorem version_gate_clears_witness :
    (getTasks (fun _ => true)
        { tasksEntry := some (.json (.arr [demoTask])),
          versionEntry := some "0.9" }).fst = [] ∧
    (getTasks (fun _ => true)
        { tasksEntry := some (.json (.arr [demoTask])),
          versionEntry := some "0.9" }).snd.tasksEntry = none ∧
    (getTasks (fun _ => true)
        { tasksEntry := some (.json (.arr [demoTask])),
          versionEntry := some "0.9" }).snd.versionEntry = none :=
  version_gate_clears (fun _ => true)
    { tasksEntry := some (.json (.arr [demoTask])), versionEntry := some "0.9" }
    "0.9" rfl (by decide) (by decide)

/-- Claim C4, counterexample: The claim states that every drop whose
transfer payload fails to parse — malformed *or absent* — still emits
`onDrop(status)`. With an absent `application/json` entry the guard
`if (taskId && taskData)` fails and the handler silently does nothing. -/
theorem drop_fallback_counterexample :
    columnHandleDrop "task-1" TransferData.absent TaskStatus.todo = false := rfl

/-- Claim C4, amended: A drop whose transfer entries are both present
(nonempty) but whose payload fails to parse still emits `onDrop(status)`
for the target column; when either transfer entry is absent the handler
does nothing. -/
theorem drop_malformed_fallback (taskId : String) (col : TaskStatus)
    (h : taskId ≠ "") :
    columnHandleDrop taskId TransferData.malformed col = true ∧
    columnHandleDrop taskId TransferData.absent col = false ∧
    columnHandleDrop "" TransferData.malformed col = false := by
  unfold columnHandleDrop
  simp [h]

/-- Witness for C4 (amended) at a concrete task id and column. -/
theorem drop_malformed_fallback_witness :
    columnHandleDrop "task-1" TransferData.malformed TaskStatus.done = true ∧
    columnHandleDrop "task-1" TransferData.absent TaskStatus.done = false ∧
    columnHandleDrop "" TransferData.malformed TaskStatus.done = false :=
  drop_malformed_fallback "task-1" TaskStatus.done (by decide)

/-- Claim C5: For every title whose trim is empty and every description, the
add-task operation (form submission invoking the board's `addTask`) is a
no-op: the task collection is unchanged. -/
theorem addTask_blank_title_noop (freshId now title description : String)
    (tasks : List Task) (h : jsTrim title = "") :
    submitTask freshId now title description tasks = tasks := by
  unfold submitTask
  rw [h]
  simp

/-- Witness for C5: submitting a whitespace-only title leaves the empty
collection empty. -/
theorem addTask_blank_title_noop_witness :
    submitTask "task_1" "2024-01-01" "   " "desc" [] = [] :=
  addTask_blank_title_noop "task_1" "2024-01-01" "   " "desc" [] (by decide)

/-- Claim C6: From the idle column state, two drag-enter events followed by
one drag-leave leave the column highlighted with counter 1; only the second
drag-leave clears the highlight and returns the counter to 0. -/
theorem drag_enter_leave_hysteresis :
    handleDragLeave (handleDragEnter (handleDragEnter idleCol))
      = { isDragOver := true, dragOverCounter := 1 } ∧
    handleDragLeave (handleDragLeave (handleDragEnter (handleDragEnter idleCol)))
      = idleCol := by
  exact ⟨rfl, rfl⟩

/-- Claim C8: Dropping a dragged task onto the column matching its own
status emits no status-change request (column handler) and leaves the task
collection unchanged (board handler); the column handler emits a request
exactly when the target column differs from the dragged task's status. -/
theorem drop_same_column_noop (t : Task) (col : TaskStatus) (taskId : String)
    (tasks : List Task) (h : taskId ≠ "") :
    columnHandleDrop taskId (TransferData.parsed (taskToJson t)) t.status = false ∧
    (boardHandleDrop (some t) t.status tasks).fst = tasks ∧
    (columnHandleDrop taskId (TransferData.parsed (taskToJson t)) col = true
      ↔ col ≠ t.status) := by
  have hmem : jsMember (taskToJson t) "status"
      = .ok (some (.str (statusString t.status))) := rfl
  refine ⟨?_, ?_, ?_⟩
  · simp only [columnHandleDrop, hmem]
    simp [h]
  · unfold boardHandleDrop
    simp
  · simp only [columnHandleDrop, hmem]
    simp only [h, if_neg, bne_iff_ne, ne_eq, if_false]
    constructor
    · intro hne hc
      exact hne (by rw [hc])
    · intro hc he
      exact hc (statusString_injective t.status col he).symm

/-- Witness for C8 at a concrete task, column and payload. -/
theorem drop_same_column_noop_witness :
    columnHandleDrop "x1"
      (TransferData.parsed (taskToJson
        { id := "x1", title := "demo", description := "",
          status := TaskStatus.todo, createdAt := "2024-01-01" }))
      TaskStatus.todo = false ∧
    (boardHandleDrop
      (some { id := "x1", title := "demo", description := "",
              status := TaskStatus.todo, createdAt := "2024-01-01" })
      TaskStatus.todo []).fst = ([] : List Task) ∧
    (columnHandleDrop "x1"
      (TransferData.parsed (taskToJson
        { id := "x1", title := "demo", description := "",
          status := TaskStatus.todo, createdAt := "2024-01-01" }))
      TaskStatus.done = true ↔ TaskStatus.done ≠ TaskStatus.todo) := by
  have h1 := drop_same_column_noop
    { id := "x1", title := "demo", description := "",
      status := TaskStatus.todo, createdAt := "2024-01-01" }
    TaskStatus.done "x1" [] (by decide)
  have h2 := drop_same_column_noop
    { id := "x1", title := "demo", description := "",
      status := TaskStatus.todo, createdAt := "2024-01-01" }
    TaskStatus.done "x1" [] (by decide)
  exact ⟨h1.1, h1.2.1, h2.2.2⟩

/-- Claim C9: `updateTaskStatus` preserves length and order; at every
position the id, title, description and createdAt fields are unchanged;
a task whose id matches gets status `ns` and a task whose id differs is
untouched; when no id matches the collection is unchanged. -/
theorem updateStatus_frame (taskId : String) (ns : TaskStatus)
    (tasks : List Task) (i : Nat) (d : Task) (h : i < tasks.length) :
    (updateTaskStatus taskId ns tasks).length = tasks.length ∧
    ((updateTaskStatus taskId ns tasks).getD i d).id = (tasks.getD i d).id ∧
    ((updateTaskStatus taskId ns tasks).getD i d).title = (tasks.getD i d).title ∧
    ((updateTaskStatus taskId ns tasks).getD i d).description
      = (tasks.getD i d).description ∧
    ((updateTaskStatus taskId ns tasks).getD i d).createdAt
      = (tasks.getD i d).createdAt ∧
    ((tasks.getD i d).id = taskId →
      ((updateTaskStatus taskId ns tasks).getD i d).status = ns) ∧
    ((tasks.getD i d).id ≠ taskId →
      (updateTaskStatus taskId ns tasks).getD i d = tasks.getD i d) ∧
    ((∀ x ∈ tasks, x.id ≠ taskId) → updateTaskStatus taskId ns tasks = tasks) := by
  have e1 : tasks[i]? = some tasks[i] := List.getElem?_eq_getElem h
  have e2 : (updateTaskStatus taskId ns tasks).getD i d
      = if tasks[i].id = taskId then { tasks[i] with status := ns }
        else tasks[i] := by
    unfold updateTaskStatus
    rw [List.getD_eq_getElem?_getD, List.getElem?_map, e1]
    rfl
  have e3 : tasks.getD i d = tasks[i] := by
    rw [List.getD_eq_getElem?_getD, e1]
    rfl
  have hnomatch : (∀ x ∈ tasks, x.id ≠ taskId) →
      updateTaskStatus taskId ns tasks = tasks := by
    intro hall
    unfold updateTaskStatus
    exact (List.map_congr_left fun x hx => if_neg (hall x hx)).trans
      (List.map_id tasks)
  rw [e2, e3]
  by_cases hid : tasks[i].id = taskId
  · exact ⟨List.length_map .., by simp [hid], by simp [hid], by simp [hid],
      by simp [hid], by simp [hid], by simp [hid], hnomatch⟩
  · exact ⟨List.length_map .., by simp [hid], by simp [hid], by simp [hid],
      by simp [hid], by simp [hid], by simp [hid], hnomatch⟩

/-- Witness for C9 at a singleton collection whose task matches. -/
theorem updateStatus_frame_witness :
    let ts : List Task :=
      [{ id := "1", title := "a", description := "b",
         status := TaskStatus.todo, createdAt := "2024-01-01" }]
    let d : Task :=
      { id := "d", title := "", description := "",
        status := TaskStatus.todo, createdAt := "" }
    (updateTaskStatus "1" TaskStatus.done ts).length = ts.length ∧
    ((updateTaskStatus "1" TaskStatus.done ts).getD 0 d).id = (ts.getD 0 d).id ∧
    ((updateTaskStatus "1" TaskStatus.done ts).getD 0 d).title = (ts.getD 0 d).title ∧
    ((updateTaskStatus "1" TaskStatus.done ts).getD 0 d).description
      = (ts.getD 0 d).description ∧
    ((updateTaskStatus "1" TaskStatus.done ts).getD 0 d).createdAt
      = (ts.getD 0 d).createdAt ∧
    ((ts.getD 0 d).id = "1" →
      ((updateTaskStatus "1" TaskStatus.done ts).getD 0 d).status = TaskStatus.done) ∧
    ((ts.getD 0 d).id ≠ "1" →
      (updateTaskStatus "1" TaskStatus.done ts).getD 0 d = ts.getD 0 d) ∧
    ((∀ x ∈ ts, x.id ≠ "1") → updateTaskStatus "1" TaskStatus.done ts = ts) :=
  updateStatus_frame "1" TaskStatus.done
    [{ id := "1", title := "a", description := "b",
       status := TaskStatus.todo, createdAt := "2024-01-01" }] 0
    { id := "d", title := "", description := "",
      status := TaskStatus.todo, createdAt := "" } (by decide)

/-- Claim C2: For every parseable backup document whose `tasks` array
contains at least one valid task and every existing stored state,
`importTasks` reports success with `tasksImported` equal to the number of
the imported valid tasks whose id is not among the existing tasks' ids,
persists exactly the existing collection followed by those genuinely new
tasks via `saveTasks` (existing entries kept unchanged, hence winning over
the imported ones with the same id), and every appended task's id is absent
from the existing ids. -/
theorem importTasks_merge (dp : String → Bool) (d : JValue) (ts : List JValue)
    (s : Store)
    (hm : jsMember d "tasks" = Except.ok (some (JValue.arr ts)))
    (hnz : ts.filter (isValidTask dp) ≠ []) :
    (importTasks dp (ImportInput.json d) s).fst.success = true ∧
    (importTasks dp (ImportInput.json d) s).fst.tasksImported
      = ((ts.filter (isValidTask dp)).filter
          (fun t => !(((getTasks dp s).fst.map idOf).contains (idOf t)))).length ∧
    (importTasks dp (ImportInput.json d) s).snd
      = saveTasks dp
          ((getTasks dp s).fst ++
            (ts.filter (isValidTask dp)).filter
              (fun t => !(((getTasks dp s).fst.map idOf).contains (idOf t))))
          (getTasks dp s).snd ∧
    (∀ t ∈ (ts.filter (isValidTask dp)).filter
          (fun t => !(((getTasks dp s).fst.map idOf).contains (idOf t))),
        ((getTasks dp s).fst.map idOf).contains (idOf t) = false) ∧
    (∀ t, t ∈ (ts.filter (isValidTask dp)).filter
          (fun t => !(((getTasks dp s).fst.map idOf).contains (idOf t)))
        ↔ (t ∈ ts ∧ isValidTask dp t = true ∧
            ((getTasks dp s).fst.map idOf).contains (idOf t) = false)) := by
  have hlen : ¬ (ts.filter (isValidTask dp)).length = 0 := by
    simpa [List.length_eq_zero] using hnz
  refine ⟨?_, ?_, ?_, ?_, ?_⟩
  · simp only [importTasks, hm]
    rw [if_neg hlen]
  · simp only [importTasks, hm]
    rw [if_neg hlen]
  · simp only [importTasks, hm]
    rw [if_neg hlen]
  · intro t ht
    simpa using List.of_mem_filter ht
  · intro t
    simp [List.mem_filter, and_assoc]
    exact fun _ => and_comm

/-- Witness for C2: importing a backup holding one valid task into the
empty store succeeds and counts one new task. -/
theorem importTasks_merge_witness :
    ([demoTask].filter (isValidTask (fun _ => true)) ≠ []) ∧
    (importTasks (fun _ => true)
        (ImportInput.json (.obj [("tasks", .arr [demoTask])]))
        emptyStore).fst.success = true ∧
    (importTasks (fun _ => true)
        (ImportInput.json (.obj [("tasks", .arr [demoTask])]))
        emptyStore).fst.tasksImported = 1 := by
  have hnz : [demoTask].filter (isValidTask (fun _ => true)) ≠ [] := by
    rw [show [demoTask].filter (isValidTask (fun _ => true)) = [demoTask] from rfl]
    exact List.cons_ne_nil _ _
  have h := importTasks_merge (fun _ => true)
    (.obj [("tasks", .arr [demoTask])]) [demoTask] emptyStore rfl hnz
  exact ⟨hnz, h.1, h.2.1.trans rfl⟩

/-- Claim C7: `importTasks` always returns a definite structured result:
an input rejected by `JSON.parse` yields the parse-failure result with
zero imported and an untouched store, and a parsed document whose `tasks`
all fail the validity predicate yields the "No valid tasks found in
backup" failure with zero imported and an untouched store. -/
theorem importTasks_error_results (dp : String → Bool) (s : Store)
    (d : JValue) (ts : List JValue)
    (hm : jsMember d "tasks" = Except.ok (some (JValue.arr ts)))
    (hempty : ts.filter (isValidTask dp) = []) :
    importTasks dp ImportInput.malformed s
      = ({ success := false, message := "Failed to parse backup file",
           tasksImported := 0 }, s) ∧
    importTasks dp (ImportInput.json d) s
      = ({ success := false, message := "No valid tasks found in backup",
           tasksImported := 0 }, s) := by
  refine ⟨rfl, ?_⟩
  simp only [importTasks, hm, hempty]
  rfl

/-- Witness for C7: a backup whose sole record has only an `id` field (the
spec's example) fails with the no-valid-tasks message; a malformed input
fails with the parse-failure message. -/
theorem importTasks_error_results_witness :
    importTasks (fun _ => true) ImportInput.malformed emptyStore
      = ({ success := false, message := "Failed to parse backup file",
           tasksImported := 0 }, emptyStore) ∧
    importTasks (fun _ => true)
        (ImportInput.json (.obj [("tasks", .arr [invalidRecord])])) emptyStore
      = ({ success := false, message := "No valid tasks found in backup",
           tasksImported := 0 }, emptyStore) :=
  importTasks_error_results (fun _ => true) emptyStore
    (.obj [("tasks", .arr [invalidRecord])]) [invalidRecord] rfl rfl

/-- A valid record with id `"x"`. -/
def taskDupA : JValue :=
  .obj [("id", .str "x"), ("title", .str "first"), ("description", .str ""),
        ("status", .str "todo"), ("createdAt", .str "2024-01-01")]

/-- A second, different valid record with the same id `"x"`. -/
def taskDupB : JValue :=
  .obj [("id", .str "x"), ("title", .str "second"), ("description", .str ""),
        ("status", .str "done"), ("createdAt", .str "2024-01-02")]

/-- Claim C10: De-duplication is only against the existing stored ids, not
within the backup: importing two valid tasks sharing id `"x"` into the
empty store appends both, so the persisted collection holds two tasks with
the same id. -/
theorem importTasks_intra_backup_duplicates :
    idOf taskDupA = idOf taskDupB ∧
    (importTasks (fun _ => true)
        (ImportInput.json (.obj [("tasks", .arr [taskDupA, taskDupB])]))
        emptyStore).fst.success = true ∧
    (importTasks (fun _ => true)
        (ImportInput.json (.obj [("tasks", .arr [taskDupA, taskDupB])]))
        emptyStore).fst.tasksImported = 2 ∧
    (importTasks (fun _ => true)
        (ImportInput.json (.obj [("tasks", .arr [taskDupA, taskDupB])]))
        emptyStore).snd.tasksEntry
      = some (.json (.arr [taskDupA, taskDupB])) :=
  ⟨rfl, rfl, rfl, rfl⟩

end Kanban
